import Mathlib

/-!
Verification of the hmon monitor-execution engine against its design
specification.  The Go sources (`conf.go`, `main.go`) are shallowly embedded:
byte slices are modelled as `String` (with `none : Option String` standing for
a nil slice), the regexp engine and the operating system are oracles supplied
through a `RunEnv` record, and the channel-based concurrency of the
coordinator is modelled by an explicit arrival order.  Durations are integers
counting nanoseconds, exactly as Go's `time.Duration`.
-/

namespace Hmon

/-- Default timeout in seconds (`const TIMEOUT_DEFAULT int = 60` in conf.go). -/
def TIMEOUT_DEFAULT : Int := 60

/-- One nanosecond-count per millisecond, as in Go's `time.Millisecond`. -/
def millisecond : Int := 1000000

/-- One nanosecond-count per second, as in Go's `time.Second`. -/
def second : Int := 1000000000

/-- `ResultError` wraps a possibly-nil error; the wrapped error is modelled by
its description, `none` standing for a nil error. -/
structure ResultError where
  err : Option String
deriving Repr, DecidableEq

/-- `ResultError.MarshalJSON` from conf.go: a nil wrapped error marshals to the
literal bytes `null`; otherwise the description is wrapped in double quotes.
The second component is the returned Go `error`, which is nil on both paths. -/
def ResultError.marshalJSON (r : ResultError) : String × Option String :=
  match r.err with
  | none => ("null", none)
  | some d => ("\x22" ++ d ++ "\x22", none)

/-- An extra HTTP header to send (`Header` in conf.go). -/
structure Header where
  name : String
  value : String
deriving Repr, DecidableEq

/-- A monitor definition (`Monitor` in conf.go).  The `Callback` field of the
Go struct holds a function value; it is modelled as an explicit parameter of
`Monitor.Run` (a boolean saying whether a callback is attached), so that the
data part of the struct stays a first-order value. -/
structure Monitor where
  name : String
  description : String
  url : String
  file : String
  timeout : Int
  headers : List Header
  assertions : List String
deriving Repr, DecidableEq

/-- Result of one monitor invocation (`Result` in conf.go).  `monitor` is the
monitor the executing goroutine was given (`Result{m, ...}`); `error` is the
description wrapped by `ResultError`, `none` for a nil error. -/
structure Result where
  monitor : Monitor
  latency : Int
  error : Option String
deriving Repr, DecidableEq

/-- The HTTP request handed to `client.Do`: method, url, optional body bytes
and the extra headers added by the loop over `m.Headers`. -/
structure HttpRequest where
  method : String
  url : String
  body : Option String
  headers : List Header
deriving Repr, DecidableEq

/-- Outcome of the `select` that races `client.Do` against `time.After`:
either the timer fires first, or the response arrives carrying either a
transport error or a body.  The body is whatever `ioutil.ReadAll` returned
(conf.go ignores the error returned beside it). -/
inductive SelectOutcome where
  | timeout
  | transportErr (e : String)
  | ok (body : String)
deriving Repr, DecidableEq

/-- The outside world as seen by one `Monitor.Run` call: the payload store
(`ioutil.ReadFile` over a base directory and file name), the outcome of
`http.NewRequest` for this url, the outcome of the raced network call, the
latency clock reading (in milliseconds, `int64(time.Now().Sub(tstart) /
time.Millisecond)`) at the moment a result is produced, and the regexp engine
(`regexp.MustCompile(pattern).Find(contents)`, `none` = no match anywhere). -/
structure RunEnv where
  readFile : String → String → Except String String
  constructErr : Option String
  select : SelectOutcome
  elapsedMillis : Int
  find : String → String → Option String

/-- One diagnostic-callback invocation: the raw input bytes and the raw output
bytes handed to the callback (`none` = nil slice). -/
abbrev CallbackCall := Option String × Option String

/-- `Monitor.notifyCallback` from conf.go: invokes the callback with the given
input/output bytes when one is attached; the model records the invocation. -/
def Monitor.notifyCallback (cbAttached : Bool) (input output : Option String) :
    List CallbackCall :=
  if cbAttached then [(input, output)] else []

/-- Everything observable about one `Monitor.Run` call: the request handed to
`client.Do` (if the run got that far), the results sent on the channel, the
callback invocations in order, and whether the goroutine panicked (which in Go
crashes the process before any send). -/
structure RunOut where
  request : Option HttpRequest
  sends : List Result
  calls : List CallbackCall
  evals : Nat
  panicked : Bool
deriving Repr

/-- Two to the sixty-third, the int64 sign boundary. -/
def int64Half : Int := 9223372036854775808

/-- The int64 an unbounded integer wraps to: two's-complement reduction, as
performed by Go's 64-bit arithmetic on `time.Duration`. -/
def wrap64 (n : Int) : Int :=
  (n + int64Half) % (2 * int64Half) - int64Half

/-- The per-monitor timeout duration in nanoseconds (conf.go lines 154-160):
the default of `TIMEOUT_DEFAULT` seconds when the configured timeout is ≤ 0,
otherwise the configured value interpreted in milliseconds.  Both products
are computed by Go in int64 (`time.Duration(int64(m.Timeout)) *
time.Millisecond`), which wraps when the configured value exceeds
9223372036854 ms. -/
def Monitor.timeoutDuration (m : Monitor) : Int :=
  if m.timeout ≤ 0 then wrap64 (TIMEOUT_DEFAULT * second)
  else wrap64 (m.timeout * millisecond)

/-- The assertion loop of conf.go lines 185-197: test the patterns in order
against the response contents, stopping at the first one whose `Find` comes
back nil.  Returns the failing pattern (if any) together with the number of
patterns that were actually evaluated. -/
def checkAssertions (find : String → String → Option String) (body : String) :
    List String → Option String × Nat
  | [] => (none, 0)
  | pat :: rest =>
    match find pat body with
    | none => (some pat, 1)
    | some _ =>
      let r := checkAssertions find body rest
      (r.1, r.2 + 1)

/-- The tail of `Monitor.Run` from the `select` onwards (conf.go lines
162-203), for a request that was successfully constructed.  `requestBody` is
the value of the function-scope `requestBody` variable, which the callback
invocations read.  On timeout the failure message renders
`timeout after %d ms` with `timeout/time.Millisecond`; latency is 0 on the
timeout and transport-error paths and the clock reading otherwise. -/
def Monitor.runDispatch (m : Monitor) (cbAttached : Bool) (env : RunEnv)
    (req : HttpRequest) (requestBody : Option String) : RunOut :=
  match env.select with
  | .timeout =>
    { request := some req
      sends := [⟨m, 0, some ("timeout after " ++
        toString (m.timeoutDuration.tdiv millisecond) ++ " ms")⟩]
      calls := Monitor.notifyCallback cbAttached requestBody none
      evals := 0
      panicked := false }
  | .transportErr e =>
    { request := some req
      sends := [⟨m, 0, some e⟩]
      calls := Monitor.notifyCallback cbAttached requestBody none
      evals := 0
      panicked := false }
  | .ok body =>
    match checkAssertions env.find body m.assertions with
    | (some pat, n) =>
      { request := some req
        sends := [⟨m, env.elapsedMillis, some ("assertion failed for regex \x60" ++
          pat ++ "\x27")⟩]
        calls := Monitor.notifyCallback cbAttached requestBody (some body)
        evals := n
        panicked := false }
    | (none, n) =>
      { request := some req
        sends := [⟨m, env.elapsedMillis, none⟩]
        calls := Monitor.notifyCallback cbAttached requestBody (some body)
        evals := n
        panicked := false }

/-- `Monitor.Run` from conf.go lines 105-204.  The function-scope
`requestBody` variable starts as a nil slice; in the POST branch the statement
`requestBody, err := ioutil.ReadFile(...)` declares NEW block-local variables
shadowing both `requestBody` and `err`, so (a) the function-scope
`requestBody` stays nil on every path — every later `notifyCallback` call
passes nil input bytes even when a payload was read and sent — and (b) the
`if err != nil` check after the branch tests the function-scope `err`, which
is nil, so a POST construction error is swallowed and the nil request makes
the goroutine panic further down (`req.Header.Add` / `client.Do`). -/
def Monitor.Run (m : Monitor) (cbAttached : Bool) (baseDir : String)
    (env : RunEnv) : RunOut :=
  let requestBodyOuter : Option String := none
  if m.file = "" then
    match env.constructErr with
    | some e =>
      { request := none
        sends := [⟨m, 0, some e⟩]
        calls := Monitor.notifyCallback cbAttached requestBodyOuter none
        evals := 0
        panicked := false }
    | none =>
      Monitor.runDispatch m cbAttached env
        ⟨"GET", m.url, none, m.headers⟩ requestBodyOuter
  else
    match env.readFile baseDir m.file with
    | .error e =>
      -- `m.notifyCallback(requestBody, nil)` here passes the block-local
      -- requestBody, which is the nil slice a failed ReadFile returned.
      { request := none
        sends := [⟨m, 0, some e⟩]
        calls := Monitor.notifyCallback cbAttached none none
        evals := 0
        panicked := false }
    | .ok contents =>
      match env.constructErr with
      | some _ =>
        -- swallowed construction error: nil request, goroutine panics,
        -- nothing is sent and no callback fires.
        { request := none, sends := [], calls := [], evals := 0,
          panicked := true }
      | none =>
        Monitor.runDispatch m cbAttached env
          ⟨"POST", m.url, some contents, m.headers⟩ requestBodyOuter

/-- Root configuration node (`Config` in conf.go). -/
structure Config where
  fileName : String
  name : String
  monitors : List Monitor
deriving Repr, DecidableEq

/-- One batch's worth of results (`ConfigurationResult` in main.go). -/
structure ConfigurationResult where
  configurationName : String
  results : List Result
deriving Repr, DecidableEq

/-- The sequential loop body of `runSequential`: dispatch each monitor's
goroutine in turn, receiving its result before starting the next (`go
mon.Run(filedir, ch); result := <-ch`).  `envs i` is the world the i-th
goroutine observes. -/
def runMonitorsSeq (filedir : String) (verbose : Bool) :
    List Monitor → (Nat → RunEnv) → List Result
  | [], _ => []
  | mon :: rest, envs =>
    (mon.Run verbose filedir (envs 0)).sends ++
      runMonitorsSeq filedir verbose rest (fun i => envs (i + 1))

/-- `runSequential` from main.go lines 561-580: run the monitors one at a
time, collecting results in iteration order.  A verbose run attaches the
verbose callback to (a copy of) each monitor before dispatch. -/
def runSequential (filedir : String) (config : Config) (verbose : Bool)
    (envs : Nat → RunEnv) : ConfigurationResult :=
  { configurationName := config.name
    results := runMonitorsSeq filedir verbose config.monitors envs }

/-- What the goroutine dispatched for index `i` of the batch writes to the
shared channel. -/
def parSendsAt (filedir : String) (verbose : Bool) (mons : List Monitor)
    (envs : Nat → RunEnv) (i : Nat) : List Result :=
  match mons.get? i with
  | some mon => (mon.Run verbose filedir (envs i)).sends
  | none => []

/-- The drain loop of `runParallel`: all goroutines were dispatched first and
write to a channel buffered to the batch size, so no sender blocks; the main
loop then receives exactly one result per monitor, in whatever order the
results arrive.  `arrival` is that arrival order, as a list of indices into
the batch. -/
def runMonitorsPar (filedir : String) (verbose : Bool) (mons : List Monitor)
    (envs : Nat → RunEnv) (arrival : List Nat) : List Result :=
  arrival.flatMap (parSendsAt filedir verbose mons envs)

/-- `runParallel` from main.go lines 582-605: fire one goroutine per monitor,
then drain one result per monitor from the shared buffered channel. -/
def runParallel (filedir : String) (config : Config) (verbose : Bool)
    (envs : Nat → RunEnv) (arrival : List Nat) : ConfigurationResult :=
  { configurationName := config.name
    results := runMonitorsPar filedir verbose config.monitors envs arrival }

/-- `printExecutionSummary` from main.go lines 608-629, reduced to the three
counters it computes: a single pass over all results of all configuration
results, incrementing `total` for every result, `countOk` when its error is
nil and `countFail` otherwise.  Returned as (total, countOk, countFail). -/
def printExecutionSummary (configResults : List ConfigurationResult) :
    Nat × Nat × Nat :=
  configResults.foldl
    (fun acc cr =>
      cr.results.foldl
        (fun acc2 res =>
          match res.error with
          | none => (acc2.1 + 1, acc2.2.1 + 1, acc2.2.2)
          | some _ => (acc2.1 + 1, acc2.2.1, acc2.2.2 + 1))
        acc)
    (0, 0, 0)

/-- The replacement string of `sanitizePandoraData` (main.go line 162): the
five characters backtick, single quote, double quote, backslash and
exclamation point, written here with hexadecimal escapes. -/
def sanitizeReplacements : String := "\x60\x27\x22\x5c!"

/-- `strings.Replace(s, string(char), "", -1)` for a single-character pattern:
every occurrence of that character is removed. -/
def stringReplaceAll (s : String) (c : Char) : String :=
  ⟨s.data.filter (fun x => x ≠ c)⟩

/-- `sanitizePandoraData` from main.go lines 161-167: for each character of
the replacement string, in order, remove all its occurrences from `s`. -/
def sanitizePandoraData (s : String) : String :=
  sanitizeReplacements.data.foldl stringReplaceAll s

/-- Whether the first list starts the second. -/
def leadsWith : List Char → List Char → Bool
  | [], _ => true
  | _ :: _, [] => false
  | a :: as, b :: bs => a == b && leadsWith as bs

/-- Whether the first list occurs contiguously somewhere in the second. -/
def occursIn (pat : List Char) : List Char → Bool
  | [] => leadsWith pat []
  | c :: rest => leadsWith pat (c :: rest) || occursIn pat rest

/-- Literal-substring matcher, used to instantiate the regexp oracle of a
`RunEnv` at concrete inputs: on a pattern without metacharacters, Go's
`regexp.Find` returns the pattern exactly when it occurs somewhere in the
contents. -/
def plainFind (pat contents : String) : Option String :=
  if occursIn pat.data contents.data then some pat else none

/-- A world where every oracle cooperates: payload reads return `payload`,
request construction succeeds, the response arrives with body `body`, the
latency clock reads `lat` ms and patterns are matched literally. -/
def mkEnv (payload body : String) (lat : Int) : RunEnv :=
  { readFile := fun _ _ => Except.ok payload
    constructErr := none
    select := SelectOutcome.ok body
    elapsedMillis := lat
    find := plainFind }

/-- A GET monitor with no assertions (a pure connectivity check). -/
def monA : Monitor := ⟨"a", "", "http://host/a", "", 0, [], []⟩

/-- A GET monitor with one assertion. -/
def monB : Monitor := ⟨"b", "", "http://host/b", "", 0, [], ["up"]⟩

/-- A two-monitor batch. -/
def cfgAB : Config := ⟨"x_hmon.xml", "batch", [monA, monB]⟩

/-- The worlds seen by the goroutines of `cfgAB`. -/
def envAB : Nat → RunEnv := fun _ => mkEnv "" "service up" 7

/-- The spec's own example monitor: one assertion `OK`. -/
def monSpecExample : Monitor := ⟨"ex", "", "http://x/ok", "", 0, [], ["OK"]⟩

/-- A monitor with two assertions, the first of which will fail. -/
def monC2 : Monitor := ⟨"c2", "", "http://x/ok", "", 0, [], ["OK", "NEVER"]⟩

/-- A world whose response body is `system DOWN`, as in the spec example. -/
def envC2 : RunEnv := mkEnv "" "system DOWN" 5

/-- A monitor with a 250 ms configured timeout. -/
def monT : Monitor := ⟨"t", "", "http://slow/", "", 250, [], []⟩

/-- A monitor whose configured timeout, 9223372036855 ms, fits an int64 (so
it passes XML parsing and Validate, which never inspects Timeout) but whose
nanosecond product overflows int64. -/
def monOv : Monitor := ⟨"ov", "", "http://x/", "", 9223372036855, [], []⟩

/-- A world in which the timeout timer fires before the response. -/
def envT : RunEnv :=
  { readFile := fun _ _ => Except.ok ""
    constructErr := none
    select := SelectOutcome.timeout
    elapsedMillis := 0
    find := plainFind }

/-- A POST monitor whose payload file is missing. -/
def monRF : Monitor := ⟨"rf", "", "http://x/", "missing.xml", 0, [], []⟩

/-- A world whose payload read fails. -/
def envRF : RunEnv :=
  { readFile := fun _ _ => Except.error "open missing.xml: no such file"
    constructErr := none
    select := SelectOutcome.ok ""
    elapsedMillis := 0
    find := plainFind }

/-- A POST monitor whose payload file exists. -/
def monP : Monitor := ⟨"p", "", "http://x/api", "req.xml", 0, [], []⟩

/-- A world whose payload read returns `PAYLOAD` and whose response body is
`resp`. -/
def envP : RunEnv := mkEnv "PAYLOAD" "resp" 2

/-- Whatever the raced call returns, `runDispatch` hands exactly the
constructed request to `client.Do`. -/
theorem runDispatch_request (m : Monitor) (cb : Bool) (env : RunEnv)
    (req : HttpRequest) (rb : Option String) :
    (Monitor.runDispatch m cb env req rb).request = some req := by
  unfold Monitor.runDispatch
  cases env.select with
  | timeout => rfl
  | transportErr e => rfl
  | ok body =>
    rcases h : checkAssertions env.find body m.assertions with ⟨o, n⟩
    cases o <;> simp [h]

/-- Every branch after the request was dispatched sends exactly one result on
the channel, carrying the monitor the goroutine was given. -/
theorem runDispatch_sends (m : Monitor) (cb : Bool) (env : RunEnv)
    (req : HttpRequest) (rb : Option String) :
    ∃ lat err, (Monitor.runDispatch m cb env req rb).sends = [⟨m, lat, err⟩] := by
  unfold Monitor.runDispatch
  cases env.select with
  | timeout => exact ⟨_, _, rfl⟩
  | transportErr e => exact ⟨_, _, rfl⟩
  | ok body =>
    rcases h : checkAssertions env.find body m.assertions with ⟨o, n⟩
    cases o <;> simp [h]

/-- Likewise, every such branch invokes the callback exactly once when one is
attached. -/
theorem runDispatch_calls (m : Monitor) (cb : Bool) (env : RunEnv)
    (req : HttpRequest) (rb : Option String) :
    ∃ input output,
      (Monitor.runDispatch m cb env req rb).calls =
        Monitor.notifyCallback cb input output := by
  unfold Monitor.runDispatch
  cases env.select with
  | timeout => exact ⟨_, _, rfl⟩
  | transportErr e => exact ⟨_, _, rfl⟩
  | ok body =>
    rcases h : checkAssertions env.find body m.assertions with ⟨o, n⟩
    cases o <;> simp [h]

/-- No branch after dispatch panics. -/
theorem runDispatch_not_panicked (m : Monitor) (cb : Bool) (env : RunEnv)
    (req : HttpRequest) (rb : Option String) :
    (Monitor.runDispatch m cb env req rb).panicked = false := by
  unfold Monitor.runDispatch
  cases env.select with
  | timeout => rfl
  | transportErr e => rfl
  | ok body =>
    rcases h : checkAssertions env.find body m.assertions with ⟨o, n⟩
    cases o <;> simp [h]

/-- A GET-branch run (no payload file) reaches dispatch with the GET request
to `m.url` with no body. -/
theorem Monitor.run_get (m : Monitor) (cb : Bool) (baseDir : String)
    (env : RunEnv) (h1 : env.constructErr = none) (hf : m.file = "") :
    m.Run cb baseDir env =
      Monitor.runDispatch m cb env ⟨"GET", m.url, none, m.headers⟩ none := by
  rw [Monitor.Run]; simp [hf, h1]

/-- A POST-branch run whose payload read succeeds reaches dispatch with the
POST request whose body is exactly the bytes read. -/
theorem Monitor.run_post (m : Monitor) (cb : Bool) (baseDir : String)
    (env : RunEnv) (b : String) (h1 : env.constructErr = none)
    (hf : m.file ≠ "") (hb : env.readFile baseDir m.file = Except.ok b) :
    m.Run cb baseDir env =
      Monitor.runDispatch m cb env ⟨"POST", m.url, some b, m.headers⟩ none := by
  rw [Monitor.Run]; simp [hf, hb, h1]

/-- When the request phase succeeds — construction does not fail and either
there is no payload file or its read succeeds — the run reaches the dispatch
tail, with the function-scope `requestBody` still nil. -/
theorem Monitor.run_reach (m : Monitor) (cb : Bool) (baseDir : String)
    (env : RunEnv) (h1 : env.constructErr = none)
    (h2 : m.file = "" ∨ ∃ b, env.readFile baseDir m.file = Except.ok b) :
    ∃ req, m.Run cb baseDir env = Monitor.runDispatch m cb env req none := by
  by_cases hf : m.file = ""
  · exact ⟨_, Monitor.run_get m cb baseDir env h1 hf⟩
  · rcases h2 with h2 | ⟨b, hb⟩
    · exact absurd h2 hf
    · exact ⟨_, Monitor.run_post m cb baseDir env b h1 hf hb⟩

/-- Any non-panicking run sends exactly one result on the channel, and that
result references the monitor the goroutine was given. -/
theorem Monitor.run_sends (m : Monitor) (cb : Bool) (baseDir : String)
    (env : RunEnv) (h : (m.Run cb baseDir env).panicked = false) :
    ∃ lat err, (m.Run cb baseDir env).sends = [⟨m, lat, err⟩] := by
  by_cases hf : m.file = ""
  · cases hce : env.constructErr with
    | some e =>
      refine ⟨0, some e, ?_⟩
      rw [Monitor.Run]; simp [hf, hce]
    | none => rw [Monitor.run_get m cb baseDir env hce hf]; exact runDispatch_sends ..
  · cases hrf : env.readFile baseDir m.file with
    | error e =>
      refine ⟨0, some e, ?_⟩
      rw [Monitor.Run]; simp [hf, hrf]
    | ok b =>
      cases hce : env.constructErr with
      | some e =>
        exfalso
        have : (m.Run cb baseDir env).panicked = true := by
          rw [Monitor.Run]; simp [hf, hrf, hce]
        rw [h] at this; exact Bool.false_ne_true this
      | none => rw [Monitor.run_post m cb baseDir env b hce hf hrf]; exact runDispatch_sends ..

/-- The assertion loop evaluated at the least non-matching index: when the
k-th pattern is the first whose `Find` comes back nil, the loop reports that
pattern and evaluates exactly the first k+1 patterns. -/
theorem checkAssertions_least (find : String → String → Option String)
    (body : String) :
    ∀ (asserts : List String) (k : Nat) (pat : String),
    asserts.get? k = some pat → find pat body = none →
    (∀ j, j < k → ∀ q, asserts.get? j = some q → find q body ≠ none) →
    checkAssertions find body asserts = (some pat, k + 1) := by
  intro asserts
  induction asserts with
  | nil => intro k pat hk; simp at hk
  | cons a rest ih =>
    intro k pat hk hf hprev
    cases k with
    | zero =>
      have ha : a = pat := by simpa using hk
      subst ha
      unfold checkAssertions
      rw [hf]
    | succ j =>
      have ha : find a body ≠ none := hprev 0 (Nat.succ_pos j) a rfl
      unfold checkAssertions
      cases hfa : find a body with
      | none => exact absurd hfa ha
      | some s =>
        have hrec := ih j pat (by simpa using hk) hf
          (fun i hi q hq => hprev (i + 1) (Nat.succ_lt_succ hi) q (by simpa using hq))
        rw [hrec]

/-- When every pattern matches, the loop reports success after evaluating all
patterns. -/
theorem checkAssertions_all_match (find : String → String → Option String)
    (body : String) :
    ∀ (asserts : List String),
    (∀ q ∈ asserts, find q body ≠ none) →
    checkAssertions find body asserts = (none, asserts.length) := by
  intro asserts
  induction asserts with
  | nil => intro _; rfl
  | cons a rest ih =>
    intro h
    unfold checkAssertions
    cases hfa : find a body with
    | none => exact absurd hfa (h a (List.mem_cons_self a rest))
    | some s =>
      rw [ih (fun q hq => h q (List.mem_cons_of_mem a hq))]
      simp

/-- The sequential coordinator loop, under the hypothesis that no dispatched
goroutine panics, yields the monitors back in input order. -/
theorem runMonitorsSeq_map (filedir : String) (verbose : Bool) :
    ∀ (mons : List Monitor) (envs : Nat → RunEnv),
    (∀ i mi, mons.get? i = some mi →
      (mi.Run verbose filedir (envs i)).panicked = false) →
    (runMonitorsSeq filedir verbose mons envs).map (fun r => r.monitor) = mons := by
  intro mons
  induction mons with
  | nil => intro envs _; rfl
  | cons mon rest ih =>
    intro envs h
    have h0 : (mon.Run verbose filedir (envs 0)).panicked = false := h 0 mon rfl
    obtain ⟨lat, err, hs⟩ := Monitor.run_sends mon verbose filedir (envs 0) h0
    have htail := ih (fun i => envs (i + 1)) (fun i mi hmi => h (i + 1) mi hmi)
    simp [runMonitorsSeq, hs, htail]

/-- Indexing the whole range of a list and flattening the looked-up elements
gives the list back. -/
theorem flatMap_range_get {α : Type} :
    ∀ (l : List α),
    (List.range l.length).flatMap (fun i => (l.get? i).toList) = l := by
  intro l
  induction l with
  | nil => rfl
  | cons a t ih =>
    rw [List.length_cons, List.range_succ_eq_map]
    rw [List.flatMap_cons, List.flatMap_map]
    simpa using ih

/-- The parallel drain loop, under the no-panic hypothesis and for an arrival
order that is a permutation of the batch indices, yields a permutation of the
input monitors. -/
theorem runMonitorsPar_map_perm (filedir : String) (verbose : Bool)
    (mons : List Monitor) (envs : Nat → RunEnv) (arrival : List Nat)
    (hnp : ∀ i mi, mons.get? i = some mi →
      (mi.Run verbose filedir (envs i)).panicked = false)
    (ha : arrival.Perm (List.range mons.length)) :
    ((runMonitorsPar filedir verbose mons envs arrival).map
      (fun r => r.monitor)).Perm mons := by
  rw [runMonitorsPar, List.map_flatMap]
  have heq : arrival.flatMap
      (fun i => (parSendsAt filedir verbose mons envs i).map
        (fun r => r.monitor)) =
      arrival.flatMap (fun i => (mons.get? i).toList) := by
    apply List.flatMap_congr
    intro i hi
    have hlt : i < mons.length := List.mem_range.mp (ha.subset hi)
    have hmi : mons.get? i = some (mons.get ⟨i, hlt⟩) := List.get?_eq_get hlt
    obtain ⟨lat, err, hs⟩ :=
      Monitor.run_sends (mons.get ⟨i, hlt⟩) verbose filedir (envs i)
        (hnp i (mons.get ⟨i, hlt⟩) hmi)
    rw [parSendsAt, hmi]
    rw [List.get_eq_getElem] at hs
    simp [hs]
  rw [heq]
  exact (List.Perm.flatMap_right _ ha).trans (by rw [flatMap_range_get])

/-- The inner loop of the summary, on one batch's results, starting from an
arbitrary accumulator: it adds the batch's length to the total, its nil-error
count to the successes and its non-nil-error count to the failures. -/
theorem summary_foldl_results :
    ∀ (rs : List Result) (t ok f : Nat),
    rs.foldl
      (fun acc2 res =>
        match res.error with
        | none => (acc2.1 + 1, acc2.2.1 + 1, acc2.2.2)
        | some _ => (acc2.1 + 1, acc2.2.1, acc2.2.2 + 1))
      (t, ok, f) =
    (t + rs.length, ok + rs.countP (fun r => r.error.isNone),
      f + rs.countP (fun r => !r.error.isNone)) := by
  intro rs
  induction rs with
  | nil => intro t ok f; simp
  | cons r rest ih =>
    intro t ok f
    cases hr : r.error with
    | none =>
      rw [List.foldl_cons]
      simp only [hr, ih, List.countP_cons, List.length_cons, hr, Option.isNone_none]
      simp [Prod.ext_iff]
      omega
    | some e =>
      rw [List.foldl_cons]
      simp only [hr, ih, List.countP_cons, List.length_cons, hr, Option.isNone_some]
      simp [Prod.ext_iff]
      omega

/-- The double loop of `printExecutionSummary`, from an arbitrary
accumulator. -/
theorem summary_foldl_configs :
    ∀ (crs : List ConfigurationResult) (t ok f : Nat),
    crs.foldl
      (fun acc cr =>
        cr.results.foldl
          (fun acc2 res =>
            match res.error with
            | none => (acc2.1 + 1, acc2.2.1 + 1, acc2.2.2)
            | some _ => (acc2.1 + 1, acc2.2.1, acc2.2.2 + 1))
          acc)
      (t, ok, f) =
    (t + (crs.flatMap (fun cr => cr.results)).length,
      ok + (crs.flatMap (fun cr => cr.results)).countP (fun r => r.error.isNone),
      f + (crs.flatMap (fun cr => cr.results)).countP
        (fun r => !r.error.isNone)) := by
  intro crs
  induction crs with
  | nil => intro t ok f; simp
  | cons cr rest ih =>
    intro t ok f
    rw [List.foldl_cons, summary_foldl_results, ih]
    simp [Prod.ext_iff, List.countP_append]
    omega

/-- `printExecutionSummary` computes, in one pass, the total number of
results, the number with nil error and the number with non-nil error. -/
theorem printExecutionSummary_eq (crs : List ConfigurationResult) :
    printExecutionSummary crs =
      ((crs.flatMap (fun cr => cr.results)).length,
        (crs.flatMap (fun cr => cr.results)).countP (fun r => r.error.isNone),
        (crs.flatMap (fun cr => cr.results)).countP
          (fun r => !r.error.isNone)) := by
  rw [printExecutionSummary, summary_foldl_configs]
  simp

/-- Folding the single-character removals over a list of characters filters
out exactly the characters of that list, keeping the rest in order. -/
theorem foldl_stringReplaceAll_data :
    ∀ (cs : List Char) (s : String),
    (cs.foldl stringReplaceAll s).data =
      s.data.filter (fun c => decide (c ∉ cs)) := by
  intro cs
  induction cs with
  | nil => intro s; simp
  | cons c cs ih =>
    intro s
    rw [List.foldl_cons, ih]
    show (s.data.filter (fun x => x ≠ c)).filter _ = _
    rw [List.filter_filter]
    apply List.filter_congr
    intro x _
    by_cases hx : x = c <;> by_cases hxs : x ∈ cs <;> simp [hx, hxs]

/-- `sanitizePandoraData` filters out exactly the replacement characters. -/
theorem sanitizePandoraData_data (s : String) :
    (sanitizePandoraData s).data =
      s.data.filter (fun c => decide (c ∉ sanitizeReplacements.data)) :=
  foldl_stringReplaceAll_data sanitizeReplacements.data s

/-- Counting a predicate and its negation partitions a list. -/
theorem countP_add_countP_not {α : Type} (p : α → Bool) :
    ∀ (l : List α), l.countP p + l.countP (fun a => !p a) = l.length := by
  intro l
  induction l with
  | nil => rfl
  | cons a t ih =>
    rw [List.countP_cons, List.countP_cons, List.length_cons]
    cases hp : p a <;> simp [hp] <;> omega

/-- C1: for a batch of N monitor specifications, parallel and sequential
execution both return exactly N results, and the monitors referenced by the
results are exactly the input specifications — one result per input spec —
no matter how many individual checks fail.  Hypotheses: no dispatched
goroutine hits the (unreachable after upstream validation)
swallowed-POST-construction-error panic, and the parallel arrival order is a
permutation of the batch indices. -/
theorem C1_exactly_one_result_per_spec (filedir : String) (config : Config)
    (verbose : Bool) (envs : Nat → RunEnv) (arrival : List Nat)
    (hnp : ∀ i mi, config.monitors.get? i = some mi →
      (mi.Run verbose filedir (envs i)).panicked = false)
    (ha : arrival.Perm (List.range config.monitors.length)) :
    (runSequential filedir config verbose envs).results.length =
      config.monitors.length ∧
    (runParallel filedir config verbose envs arrival).results.length =
      config.monitors.length ∧
    ((runSequential filedir config verbose envs).results.map
      (fun r => r.monitor)) = config.monitors ∧
    ((runParallel filedir config verbose envs arrival).results.map
      (fun r => r.monitor)).Perm config.monitors := by
  have hseq := runMonitorsSeq_map filedir verbose config.monitors envs hnp
  have hpar :=
    runMonitorsPar_map_perm filedir verbose config.monitors envs arrival hnp ha
  refine ⟨?_, ?_, hseq, hpar⟩
  · have hlen := congrArg List.length hseq
    simpa [runSequential] using hlen
  · have hlen := hpar.length_eq
    simpa [runParallel] using hlen

/-- Witness for C1 at a concrete two-monitor batch with the arrival order
reversed. -/
theorem C1_exactly_one_result_per_spec_witness :
    (∀ i mi, cfgAB.monitors.get? i = some mi →
      (mi.Run false "files" (envAB i)).panicked = false) ∧
    ([1, 0] : List Nat).Perm (List.range cfgAB.monitors.length) ∧
    (runSequential "files" cfgAB false envAB).results.length = 2 ∧
    ((runParallel "files" cfgAB false envAB [1, 0]).results.map
      (fun r => r.monitor)).Perm cfgAB.monitors := by
  have hnp : ∀ i mi, cfgAB.monitors.get? i = some mi →
      (mi.Run false "files" (envAB i)).panicked = false := by
    intro i mi h
    match i with
    | 0 => cases h; rfl
    | 1 => cases h; rfl
    | n + 2 => cases h
  have hp : ([1, 0] : List Nat).Perm (List.range cfgAB.monitors.length) := by
    decide
  obtain ⟨h1, _, _, h4⟩ :=
    C1_exactly_one_result_per_spec "files" cfgAB false envAB [1, 0] hnp hp
  exact ⟨hnp, hp, h1, h4⟩

/-- C2 (amended): when the k-th assertion pattern is the first that does not
match anywhere in the response body, the executor fails citing exactly that
pattern with the code's actual quoting — backtick before the pattern and
apostrophe after it — with latency the clock reading at that evaluation, and
evaluates no assertion after index k. -/
theorem C2_first_failing_assertion (m : Monitor) (cb : Bool)
    (baseDir : String) (env : RunEnv) (body : String) (k : Nat) (pat : String)
    (h1 : env.constructErr = none)
    (h2 : m.file = "" ∨ ∃ b, env.readFile baseDir m.file = Except.ok b)
    (h3 : env.select = SelectOutcome.ok body)
    (h4 : m.assertions.get? k = some pat)
    (h5 : env.find pat body = none)
    (h6 : ∀ j, j < k → ∀ q, m.assertions.get? j = some q →
      env.find q body ≠ none) :
    (m.Run cb baseDir env).sends =
      [⟨m, env.elapsedMillis,
        some ("assertion failed for regex \x60" ++ pat ++ "\x27")⟩] ∧
    (m.Run cb baseDir env).evals = k + 1 := by
  obtain ⟨req, hreq⟩ := Monitor.run_reach m cb baseDir env h1 h2
  rw [hreq]
  have hca := checkAssertions_least env.find body m.assertions k pat h4 h5 h6
  unfold Monitor.runDispatch
  rw [h3]
  simp [hca]

/-- Witness for the amended C2: the first of two assertions fails against
body `system DOWN`; only one assertion is evaluated. -/
theorem C2_first_failing_assertion_witness :
    monC2.assertions.get? 0 = some "OK" ∧
    envC2.find "OK" "system DOWN" = none ∧
    (monC2.Run false "." envC2).sends =
      [⟨monC2, 5, some "assertion failed for regex \x60OK\x27"⟩] ∧
    (monC2.Run false "." envC2).evals = 1 := by
  have h := C2_first_failing_assertion monC2 false "." envC2 "system DOWN" 0
    "OK" rfl (Or.inl rfl) rfl rfl (by decide)
    (fun j hj => absurd hj (Nat.not_lt_zero j))
  exact ⟨rfl, by decide, h.1, h.2⟩

/-- C2 as literally stated is false on the code: at the spec's own example —
one assertion `OK` against body `system DOWN` — the message produced closes
the quote with an apostrophe, not the backtick of the claimed
`assertion failed for regex \x60OK\x60`. -/
theorem C2_first_failing_assertion_counterexample :
    (monSpecExample.Run false "." envC2).sends.map (fun r => r.error) =
      [some "assertion failed for regex \x60OK\x27"] ∧
    (some "assertion failed for regex \x60OK\x27" : Option String) ≠
      some "assertion failed for regex \x60OK\x60" := by
  constructor
  · decide
  · decide

/-- Integers within the int64 range are fixed by the wrap. -/
theorem wrap64_eq_self {n : Int} (h1 : -int64Half ≤ n) (h2 : n < int64Half) :
    wrap64 n = n := by
  unfold int64Half at h1 h2
  unfold wrap64 int64Half
  rw [Int.emod_eq_of_lt (by linarith) (by linarith)]
  ring

/-- C3 (amended): as long as the configured timeout does not overflow the
int64 nanosecond product — timeoutMillis ≤ 9223372036854 — the effective
timeout is the configured value in milliseconds when positive and 60000 ms
(the 60-second default) otherwise; when the timer fires first the executor
fails with `timeout after N ms`, N the effective timeout in milliseconds,
and latency 0.  Beyond that bound Go's int64 duration wraps, refuting the
unconditional claim. -/
theorem C3_timeout_default_and_message (m : Monitor) (cb : Bool)
    (baseDir : String) (env : RunEnv)
    (h1 : env.constructErr = none)
    (h2 : m.file = "" ∨ ∃ b, env.readFile baseDir m.file = Except.ok b)
    (h3 : env.select = SelectOutcome.timeout)
    (hbound : 0 < m.timeout → m.timeout ≤ 9223372036854) :
    m.timeoutDuration.tdiv millisecond =
      (if 0 < m.timeout then m.timeout else 60000) ∧
    (m.Run cb baseDir env).sends =
      [⟨m, 0, some ("timeout after " ++
        toString (if 0 < m.timeout then m.timeout else 60000) ++ " ms")⟩] := by
  have hms : m.timeoutDuration.tdiv millisecond =
      (if 0 < m.timeout then m.timeout else 60000) := by
    by_cases hle : m.timeout ≤ 0
    · rw [Monitor.timeoutDuration, if_pos hle, if_neg (not_lt.mpr hle)]
      decide
    · have ht : 0 < m.timeout := lt_of_not_le hle
      rw [Monitor.timeoutDuration, if_neg hle, if_pos ht]
      have hub : m.timeout * millisecond < int64Half := by
        unfold millisecond int64Half
        linarith [hbound ht]
      have hlb : -int64Half ≤ m.timeout * millisecond := by
        unfold millisecond int64Half
        linarith
      rw [wrap64_eq_self hlb hub]
      exact Int.mul_tdiv_cancel m.timeout (by decide)
  refine ⟨hms, ?_⟩
  obtain ⟨req, hreq⟩ := Monitor.run_reach m cb baseDir env h1 h2
  rw [hreq]
  unfold Monitor.runDispatch
  rw [h3, hms]

/-- Witness for the amended C3 at a 250 ms monitor whose timer fires. -/
theorem C3_timeout_default_and_message_witness :
    envT.constructErr = none ∧ envT.select = SelectOutcome.timeout ∧
    ((0 : Int) < monT.timeout → monT.timeout ≤ 9223372036854) ∧
    monT.timeoutDuration.tdiv millisecond = 250 ∧
    (monT.Run false "." envT).sends =
      [⟨monT, 0, some "timeout after 250 ms"⟩] := by
  have h := C3_timeout_default_and_message monT false "." envT rfl
    (Or.inl rfl) rfl (fun _ => by decide)
  exact ⟨rfl, rfl, fun _ => by decide, h.1, h.2⟩

/-- C3 as stated is false on the code: a configured timeout of
9223372036855 ms fits the int64 Timeout field (so it passes parsing and
Validate, which never inspects Timeout) but its nanosecond product
overflows int64, so the effective duration is negative — the timer fires
immediately — and the message renders the wrapped value, not the configured
one as the claim requires. -/
theorem C3_timeout_default_and_message_counterexample :
    (0 : Int) < monOv.timeout ∧
    monOv.timeoutDuration = -9223372036854551616 ∧
    (monOv.Run false "." envT).sends =
      [⟨monOv, 0, some "timeout after -9223372036854 ms"⟩] ∧
    (monOv.Run false "." envT).sends ≠
      [⟨monOv, 0, some "timeout after 9223372036855 ms"⟩] := by
  refine ⟨by decide, by decide, by decide, by decide⟩

/-- C4: with an empty payload reference the executor builds a GET to the url
with no body; with one, a failed payload read reports the I/O error
immediately with latency 0 and dispatches nothing, and a successful read
dispatches a POST to the url whose body is exactly the bytes read. -/
theorem C4_get_post_and_read_failure (m1 m2 m3 : Monitor)
    (cb1 cb2 cb3 : Bool) (d1 d2 d3 : String) (env1 env2 env3 : RunEnv)
    (e b : String)
    (hf1 : m1.file = "") (hc1 : env1.constructErr = none)
    (hf2 : m2.file ≠ "") (hr2 : env2.readFile d2 m2.file = Except.error e)
    (hf3 : m3.file ≠ "") (hr3 : env3.readFile d3 m3.file = Except.ok b)
    (hc3 : env3.constructErr = none) :
    (m1.Run cb1 d1 env1).request = some ⟨"GET", m1.url, none, m1.headers⟩ ∧
    (m2.Run cb2 d2 env2).sends = [⟨m2, 0, some e⟩] ∧
    (m2.Run cb2 d2 env2).request = none ∧
    (m3.Run cb3 d3 env3).request =
      some ⟨"POST", m3.url, some b, m3.headers⟩ := by
  refine ⟨?_, ?_, ?_, ?_⟩
  · rw [Monitor.run_get m1 cb1 d1 env1 hc1 hf1]
    exact runDispatch_request ..
  · rw [Monitor.Run]
    simp [hf2, hr2]
  · rw [Monitor.Run]
    simp [hf2, hr2]
  · rw [Monitor.run_post m3 cb3 d3 env3 b hc3 hf3 hr3]
    exact runDispatch_request ..

/-- Witness for C4: a GET monitor, a monitor whose payload file is missing,
and a POST monitor whose payload read succeeds. -/
theorem C4_get_post_and_read_failure_witness :
    monA.file = "" ∧ monRF.file ≠ "" ∧ monP.file ≠ "" ∧
    (monA.Run false "." (envAB 0)).request =
      some ⟨"GET", "http://host/a", none, []⟩ ∧
    (monRF.Run false "." envRF).sends =
      [⟨monRF, 0, some "open missing.xml: no such file"⟩] ∧
    (monRF.Run false "." envRF).request = none ∧
    (monP.Run false "." envP).request =
      some ⟨"POST", "http://x/api", some "PAYLOAD", []⟩ := by
  have h := C4_get_post_and_read_failure monA monRF monP false false false
    "." "." "." (envAB 0) envRF envP "open missing.xml: no such file"
    "PAYLOAD" rfl rfl (by decide) rfl (by decide) rfl rfl
  exact ⟨rfl, by decide, by decide, h.1, h.2.1, h.2.2.1, h.2.2.2⟩

/-- C5 evaluated at the failing input: a POST monitor whose payload read
succeeds dispatches the read bytes as the request body and, with a callback
attached, invokes it exactly once — but with nil input bytes instead of the
payload, because the POST branch's short variable declaration shadows the
function-scope `requestBody`. -/
theorem C5_callback_never_sees_payload :
    (monP.Run true "files" envP).request =
      some ⟨"POST", "http://x/api", some "PAYLOAD", []⟩ ∧
    (monP.Run true "files" envP).calls = [(none, some "resp")] := by
  constructor
  · rfl
  · rfl

/-- C6: in sequential mode the i-th result belongs to the i-th input spec;
in parallel mode the only guarantee is one result per input, in arrival
order. -/
theorem C6_sequential_order_parallel_perm (filedir : String) (config : Config)
    (verbose : Bool) (envs : Nat → RunEnv) (arrival : List Nat)
    (hnp : ∀ i mi, config.monitors.get? i = some mi →
      (mi.Run verbose filedir (envs i)).panicked = false)
    (ha : arrival.Perm (List.range config.monitors.length)) :
    ((runSequential filedir config verbose envs).results.map
      (fun r => r.monitor)) = config.monitors ∧
    ((runParallel filedir config verbose envs arrival).results.map
      (fun r => r.monitor)).Perm config.monitors :=
  ⟨runMonitorsSeq_map filedir verbose config.monitors envs hnp,
    runMonitorsPar_map_perm filedir verbose config.monitors envs arrival
      hnp ha⟩

/-- Witness for C6 at the concrete two-monitor batch. -/
theorem C6_sequential_order_parallel_perm_witness :
    (∀ i mi, cfgAB.monitors.get? i = some mi →
      (mi.Run false "files" (envAB i)).panicked = false) ∧
    ([1, 0] : List Nat).Perm (List.range cfgAB.monitors.length) ∧
    ((runSequential "files" cfgAB false envAB).results.map
      (fun r => r.monitor)) = [monA, monB] := by
  have hnp : ∀ i mi, cfgAB.monitors.get? i = some mi →
      (mi.Run false "files" (envAB i)).panicked = false := by
    intro i mi h
    match i with
    | 0 => cases h; rfl
    | 1 => cases h; rfl
    | n + 2 => cases h
  have hp : ([1, 0] : List Nat).Perm (List.range cfgAB.monitors.length) := by
    decide
  have h := C6_sequential_order_parallel_perm "files" cfgAB false envAB
    [1, 0] hnp hp
  exact ⟨hnp, hp, h.1⟩

/-- C7: the aggregation is one read-only pass computing total = number of
results over all batches, successes = those with nil error, failures = those
with non-nil error, and success + failure = total always holds. -/
theorem C7_summary_counts (crs : List ConfigurationResult) :
    printExecutionSummary crs =
      ((crs.flatMap (fun cr => cr.results)).length,
        (crs.flatMap (fun cr => cr.results)).countP
          (fun r => r.error.isNone),
        (crs.flatMap (fun cr => cr.results)).countP
          (fun r => !r.error.isNone)) ∧
    (printExecutionSummary crs).2.1 + (printExecutionSummary crs).2.2 =
      (printExecutionSummary crs).1 := by
  refine ⟨printExecutionSummary_eq crs, ?_⟩
  rw [printExecutionSummary_eq]
  exact countP_add_countP_not (fun r => r.error.isNone)
    (crs.flatMap (fun cr => cr.results))

/-- Witness for C7: a batch with one success and one failure counts
total 2, success 1, failure 1. -/
theorem C7_summary_counts_witness :
    printExecutionSummary
      [⟨"g", [⟨monA, 7, none⟩, ⟨monB, 0, some "boom"⟩]⟩] = (2, 1, 1) := by
  have h := (C7_summary_counts
    [⟨"g", [⟨monA, 7, none⟩, ⟨monB, 0, some "boom"⟩]⟩]).1
  exact h

/-- C8: a monitor with no assertions whose request succeeds and whose
response body is read yields success with the measured latency, evaluating
no assertion at all. -/
theorem C8_no_assertions_success (m : Monitor) (cb : Bool) (baseDir : String)
    (env : RunEnv) (body : String)
    (h0 : m.assertions = [])
    (h1 : env.constructErr = none)
    (h2 : m.file = "" ∨ ∃ b, env.readFile baseDir m.file = Except.ok b)
    (h3 : env.select = SelectOutcome.ok body) :
    (m.Run cb baseDir env).sends = [⟨m, env.elapsedMillis, none⟩] ∧
    (m.Run cb baseDir env).evals = 0 := by
  obtain ⟨req, hreq⟩ := Monitor.run_reach m cb baseDir env h1 h2
  rw [hreq]
  unfold Monitor.runDispatch
  rw [h3, h0]
  simp [checkAssertions]

/-- Witness for C8 at the assertion-less monitor with a reachable URL. -/
theorem C8_no_assertions_success_witness :
    monA.assertions = [] ∧
    (monA.Run false "." (envAB 0)).sends = [⟨monA, 7, none⟩] := by
  have h := C8_no_assertions_success monA false "." (envAB 0) "service up"
    rfl rfl (Or.inl rfl) rfl
  exact ⟨rfl, h.1⟩

/-- C9: MarshalJSON returns the literal bytes `null` and a nil error when
the wrapped error is nil, the quoted description and a nil error otherwise,
and never fails. -/
theorem C9_marshalJSON_total :
    ResultError.marshalJSON ⟨none⟩ = ("null", none) ∧
    (∀ d, ResultError.marshalJSON ⟨some d⟩ = ("\x22" ++ d ++ "\x22", none)) ∧
    (∀ r, (ResultError.marshalJSON r).2 = none) := by
  refine ⟨rfl, fun d => rfl, fun r => ?_⟩
  rcases r with ⟨_ | d⟩ <;> rfl

/-- C10: sanitizePandoraData removes exactly the five replacement characters
— backtick (96), single quote (39), double quote (34), backslash (92),
exclamation point (33) — keeps every other character in order, never outputs
one of the five, and is idempotent. -/
theorem C10_sanitize_filters_five_chars (s : String) :
    sanitizeReplacements.data =
      [Char.ofNat 96, Char.ofNat 39, Char.ofNat 34, Char.ofNat 92,
        Char.ofNat 33] ∧
    (sanitizePandoraData s).data =
      s.data.filter (fun c => decide (c ∉ sanitizeReplacements.data)) ∧
    (∀ c ∈ (sanitizePandoraData s).data, c ∉ sanitizeReplacements.data) ∧
    sanitizePandoraData (sanitizePandoraData s) = sanitizePandoraData s := by
  refine ⟨by decide, sanitizePandoraData_data s, ?_, ?_⟩
  · intro c hc
    rw [sanitizePandoraData_data] at hc
    simp only [List.mem_filter, decide_eq_true_eq] at hc
    exact hc.2
  · apply String.ext
    rw [sanitizePandoraData_data (sanitizePandoraData s)]
    apply List.filter_eq_self.mpr
    intro a ha
    rw [sanitizePandoraData_data] at ha
    simp only [List.mem_filter] at ha
    exact ha.2

/-- Witness for C10 on a string containing all five characters. -/
theorem C10_sanitize_filters_five_chars_witness :
    sanitizePandoraData "a\x60b\x27c\x22d\x5ce!f" = "abcdef" ∧
    sanitizePandoraData (sanitizePandoraData "a\x60b\x27c\x22d\x5ce!f") =
      sanitizePandoraData "a\x60b\x27c\x22d\x5ce!f" :=
  ⟨by decide, (C10_sanitize_filters_five_chars "a\x60b\x27c\x22d\x5ce!f").2.2.2⟩

end Hmon
